import Mathlib

/-!
# gotwilio: Proxy phone-number client (`proxy_phonenumber.go`)

A shallow embedding of the four operations `AddPhoneNumber`, `ListPhoneNumbers`,
`GetPhoneNumber`, `DeletePhoneNumber` and of `PhoneNumberFormValues`.

Conventions of the embedding

* A Go value of pointer or interface type is an `Option`: `none` is `nil`.
  So `*Exception` is `Option Exception` and `error` is `Option Error`.
* A Go slice is `Option (List α)`: `none` is the nil slice, `some []` is an
  empty non-nil slice.
* The Go zero value of a type is `default` of its `Inhabited` instance.
* `url.Values` (a `map[string][]string`) is a finite map seen through its
  lookup function.
* The HTTP transport (`service.twilio.post/get/delete`) lives outside this
  source file; it is a parameter of the model, and it threads an arbitrary
  transport state `σ` so that the calls an operation issues can be observed.
* `encoding/json` is the Go standard library; `Unmarshal` keeps its two-phase
  structure (well-formedness check first, then decoding into the
  destination), with both phases as parameters.
* Types declared elsewhere in the package (`Exception`, `Meta`), the constant
  `ProxyBaseUrl`, and the standard types `time.Time`, `interface{}` and `error`
  are type or value parameters.
* `defer res.Body.Close()` has no effect on any returned value and is left out.
-/

namespace Gotwilio

/-! ## Standard-library pieces used by the source -/

/-- Go `[]byte`. -/
abbrev Bytes := List UInt8

/-- Go `url.Values`, a `map[string][]string`, seen through its lookup:
`v k = none` when the key `k` is absent. -/
abbrev Values := String → Option (List String)

/-- The empty map `url.Values{}`. -/
def Values.empty : Values := fun _ => none

/-- Go `url.Values.Set`: `v[key] = []string{value}`, replacing what was there. -/
def Values.Set (v : Values) (key value : String) : Values :=
  fun k => if k = key then some [value] else v k

/-- Go `strconv.FormatBool`. -/
def FormatBool (b : Bool) : String :=
  if b then "true" else "false"

/-- Go `fmt.Sprintf("%s/%s/%s/%s", a, b, c, d)` on strings. -/
def Sprintf4 (a b c d : String) : String :=
  a ++ "/" ++ b ++ "/" ++ c ++ "/" ++ d

/-- Go `fmt.Sprintf("%s/%s/%s/%s/%s", a, b, c, d, e)` on strings. -/
def Sprintf5 (a b c d e : String) : String :=
  a ++ "/" ++ b ++ "/" ++ c ++ "/" ++ d ++ "/" ++ e

/-- Go `http.StatusOK`. -/
def StatusOK : Int := 200

/-- Go `http.StatusCreated`. -/
def StatusCreated : Int := 201

/-- Go `http.StatusNoContent`. -/
def StatusNoContent : Int := 204

/-- An `io.ReadCloser` response body, described by what draining it yields:
the bytes read and the read error, if any. -/
structure ReadCloser (Error : Type) where
  data : Bytes
  err : Option Error

/-- Go `ioutil.ReadAll`: returns the bytes read and the error (`none` is `nil`). -/
def ReadAll {Error : Type} (r : ReadCloser Error) : Bytes × Option Error :=
  (r.data, r.err)

/-- The fields of Go `http.Response` the source reads. -/
structure Response (Error : Type) where
  StatusCode : Int
  Body : ReadCloser Error

/-- The `encoding/json` decoder, by its two phases: `checkValid` scans the
input for well-formedness, and the three `decode` functions are
`decodeState.unmarshal` at the three destination types the source uses
(input bytes and current destination value to new destination value and
error). -/
structure Json (Error PN PNL Exc : Type) where
  checkValid : Bytes → Option Error
  decodePhoneNumber : Bytes → PN → PN × Option Error
  decodeList : Bytes → PNL → PNL × Option Error
  decodeException : Bytes → Exc → Exc × Option Error

/-- Go `json.Unmarshal(data, &v)`: a syntax error is reported before the
destination is touched; a well-formed input is handed to the decoder. The
result is the destination after the call and the returned error. -/
def Unmarshal {Error α : Type} (checkValid : Bytes → Option Error)
    (decode : Bytes → α → α × Option Error) (data : Bytes) (v : α) : α × Option Error :=
  match checkValid data with
  | some err => (v, some err)
  | none => decode data v

/-! ## Data model of `proxy_phonenumber.go` -/

/-- ProxyPhoneNumberRequest shape for PhoneNumber request. -/
structure ProxyPhoneNumberRequest where
  Sid : String
  PhoneNumber : String
  IsReserved : Bool
  deriving DecidableEq, Repr

/-- ProxyPhoneNumber shape for PhoneNumber. `Time` is `time.Time`; the
`interface{}` field is `none` for `nil`. -/
structure ProxyPhoneNumber (Time Any : Type) where
  Sid : String
  ServiceSid : String
  PhoneNumber : String
  DateUpdated : Time
  FriendlyName : Option Any
  IsoCountry : String
  AccountSid : String
  URL : String
  DateCreated : Time
  Capabilities : String
  IsReserved : String
  InUser : String

/-- The Go zero value of `ProxyPhoneNumber`. -/
instance {Time Any : Type} [Inhabited Time] : Inhabited (ProxyPhoneNumber Time Any) :=
  ⟨⟨"", "", "", default, none, "", "", "", default, "", "", ""⟩⟩

/-- ProxyPhoneNumberList shape for list of PhoneNumbers. -/
structure ProxyPhoneNumberList (Time Any M : Type) where
  PhoneNumbers : Option (List (ProxyPhoneNumber Time Any))
  Meta : M

/-- The Go zero value `ProxyPhoneNumberList{}`: nil slice, zero `Meta`. -/
instance {Time Any M : Type} [Inhabited M] : Inhabited (ProxyPhoneNumberList Time Any M) :=
  ⟨⟨none, default⟩⟩

/-- The transport collaborator `*Twilio`, by the three primitives the source
calls. Each takes the transport state and returns the Go pair
`(*http.Response, error)` as `Except` together with the new state. -/
structure Twilio (σ Error : Type) where
  post : Values → String → σ → Except Error (Response Error) × σ
  get : String → σ → Except Error (Response Error) × σ
  delete : String → σ → Except Error (Response Error) × σ

/-- The fields of `ProxyService` the source reads. -/
structure ProxyService (σ Error : Type) where
  Sid : String
  twilio : Twilio σ Error

/-! ## Operations -/

/-- PhoneNumberFormValues - Form values initialization. -/
def PhoneNumberFormValues (req : ProxyPhoneNumberRequest) : Values :=
  let formValues := Values.empty
  let formValues := if req.Sid ≠ "" then formValues.Set "Sid" req.Sid else formValues
  let formValues :=
    if req.PhoneNumber ≠ "" then formValues.Set "PhoneNumber" req.PhoneNumber else formValues
  formValues.Set "IsReserved" (FormatBool req.IsReserved)

section Operations

variable {σ Error Time Any M Exc : Type}

/-- AddPhoneNumber adds a PhoneNumber to a Service. Returns the Go triple
`(response, exception, err)` and the transport state after the call. -/
def AddPhoneNumber [Inhabited Time] [Inhabited Exc] (ProxyBaseUrl : String)
    (J : Json Error (ProxyPhoneNumber Time Any) (ProxyPhoneNumberList Time Any M) Exc)
    (service : ProxyService σ Error) (req : ProxyPhoneNumberRequest) (s : σ) :
    (ProxyPhoneNumber Time Any × Option Exc × Option Error) × σ :=
  let response : ProxyPhoneNumber Time Any := default
  let exception : Option Exc := none
  let twilioURL := Sprintf4 ProxyBaseUrl "Services" service.Sid "PhoneNumbers"
  match service.twilio.post (PhoneNumberFormValues req) twilioURL s with
  | (.error err, s1) => ((response, exception, some err), s1)
  | (.ok res, s1) =>
    match ReadAll res.Body with
    | (_, some err) => ((response, exception, some err), s1)
    | (responseBody, none) =>
      if res.StatusCode ≠ StatusCreated then
        match Unmarshal J.checkValid J.decodeException responseBody (default : Exc) with
        | (exc, err) => ((response, some exc, err), s1)
      else
        match Unmarshal J.checkValid J.decodePhoneNumber responseBody response with
        | (response, err) => ((response, exception, err), s1)

/-- ListPhoneNumbers reads a list of PhoneNumbers on Service. -/
def ListPhoneNumbers [Inhabited M] [Inhabited Exc] (ProxyBaseUrl : String)
    (J : Json Error (ProxyPhoneNumber Time Any) (ProxyPhoneNumberList Time Any M) Exc)
    (service : ProxyService σ Error) (s : σ) :
    (Option (List (ProxyPhoneNumber Time Any)) × Option Exc × Option Error) × σ :=
  let response : Option (List (ProxyPhoneNumber Time Any)) := none
  let exception : Option Exc := none
  let twilioURL := Sprintf4 ProxyBaseUrl "Services" service.Sid "PhoneNumbers"
  match service.twilio.get twilioURL s with
  | (.error err, s1) => ((response, exception, some err), s1)
  | (.ok res, s1) =>
    match ReadAll res.Body with
    | (_, some err) => ((response, exception, some err), s1)
    | (responseBody, none) =>
      if res.StatusCode ≠ StatusOK then
        match Unmarshal J.checkValid J.decodeException responseBody (default : Exc) with
        | (exc, err) => ((response, some exc, err), s1)
      else
        let list : ProxyPhoneNumberList Time Any M := default
        match Unmarshal J.checkValid J.decodeList responseBody list with
        | (list, err) => ((list.PhoneNumbers, exception, err), s1)

/-- GetPhoneNumber finds a PhoneNumber by SID. -/
def GetPhoneNumber [Inhabited Time] [Inhabited Exc] (ProxyBaseUrl : String)
    (J : Json Error (ProxyPhoneNumber Time Any) (ProxyPhoneNumberList Time Any M) Exc)
    (service : ProxyService σ Error) (phoneNumberSid : String) (s : σ) :
    (ProxyPhoneNumber Time Any × Option Exc × Option Error) × σ :=
  let response : ProxyPhoneNumber Time Any := default
  let exception : Option Exc := none
  let twilioURL := Sprintf5 ProxyBaseUrl "Services" service.Sid "PhoneNumbers" phoneNumberSid
  match service.twilio.get twilioURL s with
  | (.error err, s1) => ((response, exception, some err), s1)
  | (.ok res, s1) =>
    match ReadAll res.Body with
    | (_, some err) => ((response, exception, some err), s1)
    | (responseBody, none) =>
      if res.StatusCode ≠ StatusOK then
        match Unmarshal J.checkValid J.decodeException responseBody (default : Exc) with
        | (exc, err) => ((response, some exc, err), s1)
      else
        match Unmarshal J.checkValid J.decodePhoneNumber responseBody response with
        | (response, err) => ((response, exception, err), s1)

/-- DeletePhoneNumber deletes PhoneNumber from ProxyService. Returns the Go
pair `(exception, err)` and the transport state after the call. -/
def DeletePhoneNumber [Inhabited Exc] (ProxyBaseUrl : String)
    (J : Json Error (ProxyPhoneNumber Time Any) (ProxyPhoneNumberList Time Any M) Exc)
    (service : ProxyService σ Error) (phoneNumberSid : String) (s : σ) :
    (Option Exc × Option Error) × σ :=
  let exception : Option Exc := none
  let twilioURL := Sprintf5 ProxyBaseUrl "Services" service.Sid "PhoneNumbers" phoneNumberSid
  match service.twilio.delete twilioURL s with
  | (.error err, s1) => ((exception, some err), s1)
  | (.ok res, s1) =>
    match ReadAll res.Body with
    | (_, some err) => ((none, some err), s1)
    | (respBody, none) =>
      if res.StatusCode ≠ StatusNoContent then
        match Unmarshal J.checkValid J.decodeException respBody (default : Exc) with
        | (exc, err) => ((some exc, err), s1)
      else
        ((none, none), s1)

end Operations

/-! ## A recording transport

To observe which requests an operation issues, the transport state is the log
of the calls made so far, and the remote side is an arbitrary function of the
log and of the call. -/

/-- HTTP method of a transport primitive. -/
inductive Method where
  | GET
  | POST
  | DELETE
  deriving DecidableEq, Repr

/-- One call of a transport primitive: method, URL, and the form for a POST. -/
structure Call where
  method : Method
  url : String
  form : Option Values

/-- The transport that appends every call to the log and answers with
`respond`, which sees the log before the call and the call itself. -/
def recording {Error : Type}
    (respond : List Call → Call → Except Error (Response Error)) : Twilio (List Call) Error :=
  ⟨fun form url log => (respond log ⟨Method.POST, url, some form⟩,
      log ++ [⟨Method.POST, url, some form⟩]),
   fun url log => (respond log ⟨Method.GET, url, none⟩, log ++ [⟨Method.GET, url, none⟩]),
   fun url log => (respond log ⟨Method.DELETE, url, none⟩,
      log ++ [⟨Method.DELETE, url, none⟩])⟩

/-! ## A concrete instance

A small decoder and a family of services over the recording transport, used
to evaluate the operations on concrete inputs. Here `error` is a message,
`time.Time` a number, `interface{}` a string, `Exception` a message and `Meta`
a page number. -/

/-- A decoder that accepts exactly the inputs opening with a brace; it decodes
a phone number by setting its `Sid`, a list to one zero-valued phone number,
and an exception to a fixed message. -/
def demoJson :
    Json String (ProxyPhoneNumber Nat String) (ProxyPhoneNumberList Nat String Nat) String :=
  ⟨fun data => if data.head? = some 123 then none else some "invalid character",
   fun _ v => (⟨"PN1", v.ServiceSid, v.PhoneNumber, v.DateUpdated, v.FriendlyName,
      v.IsoCountry, v.AccountSid, v.URL, v.DateCreated, v.Capabilities, v.IsReserved,
      v.InUser⟩, none),
   fun _ v => (⟨some [default], v.Meta + 1⟩, none),
   fun _ _ => ("not found", none)⟩

/-- The service `KS1` over the recording transport whose remote side answers
every call with `r`. -/
def demoService (r : Except String (Response String)) : ProxyService (List Call) String :=
  ⟨"KS1", recording (fun _ _ => r)⟩

/-- A well-formed two-byte body, an opening and a closing brace. -/
def demoBody : Bytes := [123, 125]

/-- The request of the form-encoding example. -/
def demoRequest : ProxyPhoneNumberRequest := ⟨"", "+15551234567", true⟩

/-! ## Basic facts -/

theorem Sprintf4_services (base sid : String) :
    Sprintf4 base "Services" sid "PhoneNumbers"
      = base ++ "/Services/" ++ sid ++ "/PhoneNumbers" := by
  have h1 : "/" ++ ("Services" ++ "/") = "/Services/" := by decide
  have h2 : "/" ++ "PhoneNumbers" = "/PhoneNumbers" := by decide
  simp only [Sprintf4, String.append_assoc, h1, h2]

theorem Sprintf5_services (base sid p : String) :
    Sprintf5 base "Services" sid "PhoneNumbers" p
      = base ++ "/Services/" ++ sid ++ "/PhoneNumbers" ++ "/" ++ p := by
  have h1 : "/" ++ ("Services" ++ "/") = "/Services/" := by decide
  have h2 : "/" ++ ("PhoneNumbers" ++ "/") = "/PhoneNumbers" ++ "/" := by decide
  simp only [Sprintf5, String.append_assoc, h1]
  rw [← String.append_assoc "/" "PhoneNumbers", ← String.append_assoc "/PhoneNumbers"]
  simp only [String.append_assoc]
  rfl

theorem Unmarshal_invalid {Error α : Type} (checkValid : Bytes → Option Error)
    (decode : Bytes → α → α × Option Error) (data : Bytes) (v : α) (e : Error)
    (h : checkValid data = some e) : Unmarshal checkValid decode data v = (v, some e) := by
  simp [Unmarshal, h]

section Paths

variable {σ Error Time Any M Exc : Type}
variable (base : String)
variable (J : Json Error (ProxyPhoneNumber Time Any) (ProxyPhoneNumberList Time Any M) Exc)
variable (service : ProxyService σ Error)

/-! ### The four paths of `AddPhoneNumber` -/

theorem Add_transport_error [Inhabited Time] [Inhabited Exc]
    (req : ProxyPhoneNumberRequest) (s : σ) (e : Error)
    (h : (service.twilio.post (PhoneNumberFormValues req)
      (Sprintf4 base "Services" service.Sid "PhoneNumbers") s).1 = Except.error e) :
    AddPhoneNumber base J service req s
      = ((default, none, some e), (service.twilio.post (PhoneNumberFormValues req)
          (Sprintf4 base "Services" service.Sid "PhoneNumbers") s).2) := by
  simp only [AddPhoneNumber]
  generalize service.twilio.post (PhoneNumberFormValues req)
    (Sprintf4 base "Services" service.Sid "PhoneNumbers") s = p at h
  obtain ⟨r, s1⟩ := p
  simp only at h
  subst h
  rfl

theorem Add_read_error [Inhabited Time] [Inhabited Exc]
    (req : ProxyPhoneNumberRequest) (s : σ) (res : Response Error) (body : Bytes) (e : Error)
    (h : (service.twilio.post (PhoneNumberFormValues req)
      (Sprintf4 base "Services" service.Sid "PhoneNumbers") s).1 = Except.ok res)
    (hr : ReadAll res.Body = (body, some e)) :
    AddPhoneNumber base J service req s
      = ((default, none, some e), (service.twilio.post (PhoneNumberFormValues req)
          (Sprintf4 base "Services" service.Sid "PhoneNumbers") s).2) := by
  simp only [AddPhoneNumber]
  generalize service.twilio.post (PhoneNumberFormValues req)
    (Sprintf4 base "Services" service.Sid "PhoneNumbers") s = p at h
  obtain ⟨r, s1⟩ := p
  simp only at h
  subst h
  simp only [hr]

theorem Add_failure_status [Inhabited Time] [Inhabited Exc]
    (req : ProxyPhoneNumberRequest) (s : σ) (res : Response Error) (body : Bytes)
    (h : (service.twilio.post (PhoneNumberFormValues req)
      (Sprintf4 base "Services" service.Sid "PhoneNumbers") s).1 = Except.ok res)
    (hr : ReadAll res.Body = (body, none)) (hs : res.StatusCode ≠ StatusCreated) :
    AddPhoneNumber base J service req s
      = ((default,
          some (Unmarshal J.checkValid J.decodeException body default).1,
          (Unmarshal J.checkValid J.decodeException body default).2),
         (service.twilio.post (PhoneNumberFormValues req)
          (Sprintf4 base "Services" service.Sid "PhoneNumbers") s).2) := by
  simp only [AddPhoneNumber]
  generalize service.twilio.post (PhoneNumberFormValues req)
    (Sprintf4 base "Services" service.Sid "PhoneNumbers") s = p at h
  obtain ⟨r, s1⟩ := p
  simp only at h
  subst h
  simp only [hr, hs, ne_eq, not_false_eq_true, if_true]

theorem Add_success_status [Inhabited Time] [Inhabited Exc]
    (req : ProxyPhoneNumberRequest) (s : σ) (res : Response Error) (body : Bytes)
    (h : (service.twilio.post (PhoneNumberFormValues req)
      (Sprintf4 base "Services" service.Sid "PhoneNumbers") s).1 = Except.ok res)
    (hr : ReadAll res.Body = (body, none)) (hs : res.StatusCode = StatusCreated) :
    AddPhoneNumber base J service req s
      = (((Unmarshal J.checkValid J.decodePhoneNumber body default).1,
          none,
          (Unmarshal J.checkValid J.decodePhoneNumber body default).2),
         (service.twilio.post (PhoneNumberFormValues req)
          (Sprintf4 base "Services" service.Sid "PhoneNumbers") s).2) := by
  simp only [AddPhoneNumber]
  generalize service.twilio.post (PhoneNumberFormValues req)
    (Sprintf4 base "Services" service.Sid "PhoneNumbers") s = p at h
  obtain ⟨r, s1⟩ := p
  simp only at h
  subst h
  simp only [hr, hs, ne_eq, not_true_eq_false, if_false]

/-! ### The four paths of `ListPhoneNumbers` -/

theorem List_transport_error [Inhabited M] [Inhabited Exc] (s : σ) (e : Error)
    (h : (service.twilio.get (Sprintf4 base "Services" service.Sid "PhoneNumbers") s).1
      = Except.error e) :
    ListPhoneNumbers base J service s
      = ((none, none, some e),
         (service.twilio.get (Sprintf4 base "Services" service.Sid "PhoneNumbers") s).2) := by
  simp only [ListPhoneNumbers]
  generalize service.twilio.get (Sprintf4 base "Services" service.Sid "PhoneNumbers") s = p at h
  obtain ⟨r, s1⟩ := p
  simp only at h
  subst h
  rfl

theorem List_read_error [Inhabited M] [Inhabited Exc] (s : σ) (res : Response Error)
    (body : Bytes) (e : Error)
    (h : (service.twilio.get (Sprintf4 base "Services" service.Sid "PhoneNumbers") s).1
      = Except.ok res)
    (hr : ReadAll res.Body = (body, some e)) :
    ListPhoneNumbers base J service s
      = ((none, none, some e),
         (service.twilio.get (Sprintf4 base "Services" service.Sid "PhoneNumbers") s).2) := by
  simp only [ListPhoneNumbers]
  generalize service.twilio.get (Sprintf4 base "Services" service.Sid "PhoneNumbers") s = p at h
  obtain ⟨r, s1⟩ := p
  simp only at h
  subst h
  simp only [hr]

theorem List_failure_status [Inhabited M] [Inhabited Exc] (s : σ) (res : Response Error)
    (body : Bytes)
    (h : (service.twilio.get (Sprintf4 base "Services" service.Sid "PhoneNumbers") s).1
      = Except.ok res)
    (hr : ReadAll res.Body = (body, none)) (hs : res.StatusCode ≠ StatusOK) :
    ListPhoneNumbers base J service s
      = ((none,
          some (Unmarshal J.checkValid J.decodeException body default).1,
          (Unmarshal J.checkValid J.decodeException body default).2),
         (service.twilio.get (Sprintf4 base "Services" service.Sid "PhoneNumbers") s).2) := by
  simp only [ListPhoneNumbers]
  generalize service.twilio.get (Sprintf4 base "Services" service.Sid "PhoneNumbers") s = p at h
  obtain ⟨r, s1⟩ := p
  simp only at h
  subst h
  simp only [hr, hs, ne_eq, not_false_eq_true, if_true]

theorem List_success_status [Inhabited M] [Inhabited Exc] (s : σ) (res : Response Error)
    (body : Bytes)
    (h : (service.twilio.get (Sprintf4 base "Services" service.Sid "PhoneNumbers") s).1
      = Except.ok res)
    (hr : ReadAll res.Body = (body, none)) (hs : res.StatusCode = StatusOK) :
    ListPhoneNumbers base J service s
      = (((Unmarshal J.checkValid J.decodeList body default).1.PhoneNumbers,
          none,
          (Unmarshal J.checkValid J.decodeList body default).2),
         (service.twilio.get (Sprintf4 base "Services" service.Sid "PhoneNumbers") s).2) := by
  simp only [ListPhoneNumbers]
  generalize service.twilio.get (Sprintf4 base "Services" service.Sid "PhoneNumbers") s = p at h
  obtain ⟨r, s1⟩ := p
  simp only at h
  subst h
  simp only [hr, hs, ne_eq, not_true_eq_false, if_false]

/-! ### The four paths of `GetPhoneNumber` -/

theorem Get_transport_error [Inhabited Time] [Inhabited Exc]
    (phoneNumberSid : String) (s : σ) (e : Error)
    (h : (service.twilio.get
        (Sprintf5 base "Services" service.Sid "PhoneNumbers" phoneNumberSid) s).1
      = Except.error e) :
    GetPhoneNumber base J service phoneNumberSid s
      = ((default, none, some e),
         (service.twilio.get
             (Sprintf5 base "Services" service.Sid "PhoneNumbers" phoneNumberSid) s).2) := by
  simp only [GetPhoneNumber]
  generalize service.twilio.get
      (Sprintf5 base "Services" service.Sid "PhoneNumbers" phoneNumberSid) s = p at h
  obtain ⟨r, s1⟩ := p
  simp only at h
  subst h
  rfl

theorem Get_read_error [Inhabited Time] [Inhabited Exc]
    (phoneNumberSid : String) (s : σ) (res : Response Error)
    (body : Bytes) (e : Error)
    (h : (service.twilio.get
        (Sprintf5 base "Services" service.Sid "PhoneNumbers" phoneNumberSid) s).1
      = Except.ok res)
    (hr : ReadAll res.Body = (body, some e)) :
    GetPhoneNumber base J service phoneNumberSid s
      = ((default, none, some e),
         (service.twilio.get
             (Sprintf5 base "Services" service.Sid "PhoneNumbers" phoneNumberSid) s).2) := by
  simp only [GetPhoneNumber]
  generalize service.twilio.get
      (Sprintf5 base "Services" service.Sid "PhoneNumbers" phoneNumberSid) s = p at h
  obtain ⟨r, s1⟩ := p
  simp only at h
  subst h
  simp only [hr]

theorem Get_failure_status [Inhabited Time] [Inhabited Exc]
    (phoneNumberSid : String) (s : σ) (res : Response Error)
    (body : Bytes)
    (h : (service.twilio.get
        (Sprintf5 base "Services" service.Sid "PhoneNumbers" phoneNumberSid) s).1
      = Except.ok res)
    (hr : ReadAll res.Body = (body, none)) (hs : res.StatusCode ≠ StatusOK) :
    GetPhoneNumber base J service phoneNumberSid s
      = ((default, some (Unmarshal J.checkValid J.decodeException body default).1,
          (Unmarshal J.checkValid J.decodeException body default).2),
         (service.twilio.get
             (Sprintf5 base "Services" service.Sid "PhoneNumbers" phoneNumberSid) s).2) := by
  simp only [GetPhoneNumber]
  generalize service.twilio.get
      (Sprintf5 base "Services" service.Sid "PhoneNumbers" phoneNumberSid) s = p at h
  obtain ⟨r, s1⟩ := p
  simp only at h
  subst h
  simp only [hr, hs, ne_eq, not_false_eq_true, if_true]

theorem Get_success_status [Inhabited Time] [Inhabited Exc]
    (phoneNumberSid : String) (s : σ) (res : Response Error)
    (body : Bytes)
    (h : (service.twilio.get
        (Sprintf5 base "Services" service.Sid "PhoneNumbers" phoneNumberSid) s).1
      = Except.ok res)
    (hr : ReadAll res.Body = (body, none)) (hs : res.StatusCode = StatusOK) :
    GetPhoneNumber base J service phoneNumberSid s
      = (((Unmarshal J.checkValid J.decodePhoneNumber body default).1,
          none,
          (Unmarshal J.checkValid J.decodePhoneNumber body default).2),
         (service.twilio.get
             (Sprintf5 base "Services" service.Sid "PhoneNumbers" phoneNumberSid) s).2) := by
  simp only [GetPhoneNumber]
  generalize service.twilio.get
      (Sprintf5 base "Services" service.Sid "PhoneNumbers" phoneNumberSid) s = p at h
  obtain ⟨r, s1⟩ := p
  simp only at h
  subst h
  simp only [hr, hs, ne_eq, not_true_eq_false, if_false]

/-! ### The four paths of `DeletePhoneNumber` -/

theorem Delete_transport_error [Inhabited Exc]
    (phoneNumberSid : String) (s : σ) (e : Error)
    (h : (service.twilio.delete
        (Sprintf5 base "Services" service.Sid "PhoneNumbers" phoneNumberSid) s).1
      = Except.error e) :
    DeletePhoneNumber base J service phoneNumberSid s
      = ((none, some e),
         (service.twilio.delete
             (Sprintf5 base "Services" service.Sid "PhoneNumbers" phoneNumberSid) s).2) := by
  simp only [DeletePhoneNumber]
  generalize service.twilio.delete
      (Sprintf5 base "Services" service.Sid "PhoneNumbers" phoneNumberSid) s = p at h
  obtain ⟨r, s1⟩ := p
  simp only at h
  subst h
  rfl

theorem Delete_read_error [Inhabited Exc]
    (phoneNumberSid : String) (s : σ) (res : Response Error)
    (body : Bytes) (e : Error)
    (h : (service.twilio.delete
        (Sprintf5 base "Services" service.Sid "PhoneNumbers" phoneNumberSid) s).1
      = Except.ok res)
    (hr : ReadAll res.Body = (body, some e)) :
    DeletePhoneNumber base J service phoneNumberSid s
      = ((none, some e),
         (service.twilio.delete
             (Sprintf5 base "Services" service.Sid "PhoneNumbers" phoneNumberSid) s).2) := by
  simp only [DeletePhoneNumber]
  generalize service.twilio.delete
      (Sprintf5 base "Services" service.Sid "PhoneNumbers" phoneNumberSid) s = p at h
  obtain ⟨r, s1⟩ := p
  simp only at h
  subst h
  simp only [hr]

theorem Delete_failure_status [Inhabited Exc]
    (phoneNumberSid : String) (s : σ) (res : Response Error)
    (body : Bytes)
    (h : (service.twilio.delete
        (Sprintf5 base "Services" service.Sid "PhoneNumbers" phoneNumberSid) s).1
      = Except.ok res)
    (hr : ReadAll res.Body = (body, none)) (hs : res.StatusCode ≠ StatusNoContent) :
    DeletePhoneNumber base J service phoneNumberSid s
      = ((some (Unmarshal J.checkValid J.decodeException body default).1,
          (Unmarshal J.checkValid J.decodeException body default).2),
         (service.twilio.delete
             (Sprintf5 base "Services" service.Sid "PhoneNumbers" phoneNumberSid) s).2) := by
  simp only [DeletePhoneNumber]
  generalize service.twilio.delete
      (Sprintf5 base "Services" service.Sid "PhoneNumbers" phoneNumberSid) s = p at h
  obtain ⟨r, s1⟩ := p
  simp only at h
  subst h
  simp only [hr, hs, ne_eq, not_false_eq_true, if_true]

theorem Delete_success_status [Inhabited Exc]
    (phoneNumberSid : String) (s : σ) (res : Response Error)
    (body : Bytes)
    (h : (service.twilio.delete
        (Sprintf5 base "Services" service.Sid "PhoneNumbers" phoneNumberSid) s).1
      = Except.ok res)
    (hr : ReadAll res.Body = (body, none)) (hs : res.StatusCode = StatusNoContent) :
    DeletePhoneNumber base J service phoneNumberSid s
      = ((none, none),
         (service.twilio.delete
             (Sprintf5 base "Services" service.Sid "PhoneNumbers" phoneNumberSid) s).2) := by
  simp only [DeletePhoneNumber]
  generalize service.twilio.delete
      (Sprintf5 base "Services" service.Sid "PhoneNumbers" phoneNumberSid) s = p at h
  obtain ⟨r, s1⟩ := p
  simp only at h
  subst h
  simp only [hr, hs, ne_eq, not_true_eq_false, if_false]

end Paths

/-! ## Form encoding -/

/-- C1: `PhoneNumberFormValues req` has key `Sid` with the single value
`req.Sid` exactly when `req.Sid` is non-empty, key `PhoneNumber` with the
single value `req.PhoneNumber` exactly when `req.PhoneNumber` is non-empty, key
`IsReserved` always, with the single value `true` or `false`, and no other key;
for the request with empty `Sid`, phone number `+15551234567` and
`IsReserved = true` the form has no `Sid`, that phone number, and `true`. -/
theorem PhoneNumberFormValues_exact (req : ProxyPhoneNumberRequest) :
    (PhoneNumberFormValues req "Sid" = if req.Sid = "" then none else some [req.Sid]) ∧
    (PhoneNumberFormValues req "PhoneNumber"
      = if req.PhoneNumber = "" then none else some [req.PhoneNumber]) ∧
    (PhoneNumberFormValues req "IsReserved"
      = some [if req.IsReserved = true then "true" else "false"]) ∧
    (∀ k : String, k ≠ "Sid" → k ≠ "PhoneNumber" → k ≠ "IsReserved" →
      PhoneNumberFormValues req k = none) ∧
    (PhoneNumberFormValues ⟨"", "+15551234567", true⟩ "Sid" = none ∧
     PhoneNumberFormValues ⟨"", "+15551234567", true⟩ "PhoneNumber" = some ["+15551234567"] ∧
     PhoneNumberFormValues ⟨"", "+15551234567", true⟩ "IsReserved" = some ["true"]) := by
  refine ⟨?_, ?_, ?_, ?_, ?_, ?_, ?_⟩
  · by_cases h1 : req.Sid = "" <;> by_cases h2 : req.PhoneNumber = "" <;>
      simp [PhoneNumberFormValues, Values.Set, Values.empty, h1, h2]
  · by_cases h1 : req.Sid = "" <;> by_cases h2 : req.PhoneNumber = "" <;>
      simp [PhoneNumberFormValues, Values.Set, Values.empty, h1, h2]
  · simp [PhoneNumberFormValues, Values.Set, FormatBool]
  · intro k k1 k2 k3
    by_cases h1 : req.Sid = "" <;> by_cases h2 : req.PhoneNumber = "" <;>
      simp [PhoneNumberFormValues, Values.Set, Values.empty, h1, h2, k1, k2, k3]
  · simp [PhoneNumberFormValues, Values.Set, Values.empty]
  · simp [PhoneNumberFormValues, Values.Set, Values.empty]
  · simp [PhoneNumberFormValues, Values.Set, FormatBool]

/-! ## Every outcome of an exchange -/

section Outcomes

variable {σ Error Time Any M Exc : Type}
variable (base : String)
variable (J : Json Error (ProxyPhoneNumber Time Any) (ProxyPhoneNumberList Time Any M) Exc)
variable (service : ProxyService σ Error)

theorem Add_state [Inhabited Time] [Inhabited Exc] (req : ProxyPhoneNumberRequest) (s : σ) :
    (AddPhoneNumber base J service req s).2
      = (service.twilio.post (PhoneNumberFormValues req)
        (Sprintf4 base "Services" service.Sid "PhoneNumbers") s).2 := by
  rcases hp : (service.twilio.post (PhoneNumberFormValues req)
        (Sprintf4 base "Services" service.Sid "PhoneNumbers") s).1 with e | res
  · rw [Add_transport_error base J service req s e hp]
  · rcases hb : ReadAll res.Body with ⟨body, _ | e⟩
    · by_cases hs : res.StatusCode = 201
      · rw [Add_success_status base J service req s res body hp hb hs]
      · rw [Add_failure_status base J service req s res body hp hb hs]
    · rw [Add_read_error base J service req s res body e hp hb]

theorem Add_exception_iff [Inhabited Time] [Inhabited Exc] (req : ProxyPhoneNumberRequest) (s : σ) :
    (AddPhoneNumber base J service req s).1.2.1 ≠ none ↔
      ∃ res body, (service.twilio.post (PhoneNumberFormValues req)
        (Sprintf4 base "Services" service.Sid "PhoneNumbers") s).1 = Except.ok res ∧
        ReadAll res.Body = (body, none) ∧ res.StatusCode ≠ 201 := by
  rcases hp : (service.twilio.post (PhoneNumberFormValues req)
        (Sprintf4 base "Services" service.Sid "PhoneNumbers") s).1 with e | res
  · rw [Add_transport_error base J service req s e hp]
    simp
  · rcases hb : ReadAll res.Body with ⟨body, _ | e⟩
    · by_cases hs : res.StatusCode = 201
      · rw [Add_success_status base J service req s res body hp hb hs]
        simp only [ne_eq, not_true_eq_false, false_iff, not_exists, not_and, not_not]
        intro res1 body1 h1 _
        cases h1
        exact hs
      · rw [Add_failure_status base J service req s res body hp hb hs]
        simp only [ne_eq, Option.some_ne_none, not_false_eq_true, true_iff, reduceCtorEq]
        exact ⟨res, body, rfl, hb, hs⟩
    · rw [Add_read_error base J service req s res body e hp hb]
      simp only [ne_eq, not_true_eq_false, false_iff, not_exists, not_and, not_not]
      intro res1 body1 h1 h2
      cases h1
      rw [hb] at h2
      cases h2

theorem List_state [Inhabited M] [Inhabited Exc] (s : σ) :
    (ListPhoneNumbers base J service s).2
      = (service.twilio.get
        (Sprintf4 base "Services" service.Sid "PhoneNumbers") s).2 := by
  rcases hp : (service.twilio.get
        (Sprintf4 base "Services" service.Sid "PhoneNumbers") s).1 with e | res
  · rw [List_transport_error base J service s e hp]
  · rcases hb : ReadAll res.Body with ⟨body, _ | e⟩
    · by_cases hs : res.StatusCode = 200
      · rw [List_success_status base J service s res body hp hb hs]
      · rw [List_failure_status base J service s res body hp hb hs]
    · rw [List_read_error base J service s res body e hp hb]

theorem List_exception_iff [Inhabited M] [Inhabited Exc] (s : σ) :
    (ListPhoneNumbers base J service s).1.2.1 ≠ none ↔
      ∃ res body, (service.twilio.get
        (Sprintf4 base "Services" service.Sid "PhoneNumbers") s).1 = Except.ok res ∧
        ReadAll res.Body = (body, none) ∧ res.StatusCode ≠ 200 := by
  rcases hp : (service.twilio.get
        (Sprintf4 base "Services" service.Sid "PhoneNumbers") s).1 with e | res
  · rw [List_transport_error base J service s e hp]
    simp
  · rcases hb : ReadAll res.Body with ⟨body, _ | e⟩
    · by_cases hs : res.StatusCode = 200
      · rw [List_success_status base J service s res body hp hb hs]
        simp only [ne_eq, not_true_eq_false, false_iff, not_exists, not_and, not_not]
        intro res1 body1 h1 _
        cases h1
        exact hs
      · rw [List_failure_status base J service s res body hp hb hs]
        simp only [ne_eq, Option.some_ne_none, not_false_eq_true, true_iff, reduceCtorEq]
        exact ⟨res, body, rfl, hb, hs⟩
    · rw [List_read_error base J service s res body e hp hb]
      simp only [ne_eq, not_true_eq_false, false_iff, not_exists, not_and, not_not]
      intro res1 body1 h1 h2
      cases h1
      rw [hb] at h2
      cases h2

theorem Get_state [Inhabited Time] [Inhabited Exc] (phoneNumberSid : String) (s : σ) :
    (GetPhoneNumber base J service phoneNumberSid s).2
      = (service.twilio.get
        (Sprintf5 base "Services" service.Sid "PhoneNumbers" phoneNumberSid) s).2 := by
  rcases hp : (service.twilio.get
        (Sprintf5 base "Services" service.Sid "PhoneNumbers" phoneNumberSid) s).1 with e | res
  · rw [Get_transport_error base J service phoneNumberSid s e hp]
  · rcases hb : ReadAll res.Body with ⟨body, _ | e⟩
    · by_cases hs : res.StatusCode = 200
      · rw [Get_success_status base J service phoneNumberSid s res body hp hb hs]
      · rw [Get_failure_status base J service phoneNumberSid s res body hp hb hs]
    · rw [Get_read_error base J service phoneNumberSid s res body e hp hb]

theorem Get_exception_iff [Inhabited Time] [Inhabited Exc] (phoneNumberSid : String) (s : σ) :
    (GetPhoneNumber base J service phoneNumberSid s).1.2.1 ≠ none ↔
      ∃ res body, (service.twilio.get
        (Sprintf5 base "Services" service.Sid "PhoneNumbers" phoneNumberSid) s).1 = Except.ok res ∧
        ReadAll res.Body = (body, none) ∧ res.StatusCode ≠ 200 := by
  rcases hp : (service.twilio.get
        (Sprintf5 base "Services" service.Sid "PhoneNumbers" phoneNumberSid) s).1 with e | res
  · rw [Get_transport_error base J service phoneNumberSid s e hp]
    simp
  · rcases hb : ReadAll res.Body with ⟨body, _ | e⟩
    · by_cases hs : res.StatusCode = 200
      · rw [Get_success_status base J service phoneNumberSid s res body hp hb hs]
        simp only [ne_eq, not_true_eq_false, false_iff, not_exists, not_and, not_not]
        intro res1 body1 h1 _
        cases h1
        exact hs
      · rw [Get_failure_status base J service phoneNumberSid s res body hp hb hs]
        simp only [ne_eq, Option.some_ne_none, not_false_eq_true, true_iff, reduceCtorEq]
        exact ⟨res, body, rfl, hb, hs⟩
    · rw [Get_read_error base J service phoneNumberSid s res body e hp hb]
      simp only [ne_eq, not_true_eq_false, false_iff, not_exists, not_and, not_not]
      intro res1 body1 h1 h2
      cases h1
      rw [hb] at h2
      cases h2

theorem Delete_state [Inhabited Exc] (phoneNumberSid : String) (s : σ) :
    (DeletePhoneNumber base J service phoneNumberSid s).2
      = (service.twilio.delete
        (Sprintf5 base "Services" service.Sid "PhoneNumbers" phoneNumberSid) s).2 := by
  rcases hp : (service.twilio.delete
        (Sprintf5 base "Services" service.Sid "PhoneNumbers" phoneNumberSid) s).1 with e | res
  · rw [Delete_transport_error base J service phoneNumberSid s e hp]
  · rcases hb : ReadAll res.Body with ⟨body, _ | e⟩
    · by_cases hs : res.StatusCode = 204
      · rw [Delete_success_status base J service phoneNumberSid s res body hp hb hs]
      · rw [Delete_failure_status base J service phoneNumberSid s res body hp hb hs]
    · rw [Delete_read_error base J service phoneNumberSid s res body e hp hb]

theorem Delete_exception_iff [Inhabited Exc] (phoneNumberSid : String) (s : σ) :
    (DeletePhoneNumber base J service phoneNumberSid s).1.1 ≠ none ↔
      ∃ res body, (service.twilio.delete
        (Sprintf5 base "Services" service.Sid "PhoneNumbers" phoneNumberSid) s).1 = Except.ok res ∧
        ReadAll res.Body = (body, none) ∧ res.StatusCode ≠ 204 := by
  rcases hp : (service.twilio.delete
        (Sprintf5 base "Services" service.Sid "PhoneNumbers" phoneNumberSid) s).1 with e | res
  · rw [Delete_transport_error base J service phoneNumberSid s e hp]
    simp
  · rcases hb : ReadAll res.Body with ⟨body, _ | e⟩
    · by_cases hs : res.StatusCode = 204
      · rw [Delete_success_status base J service phoneNumberSid s res body hp hb hs]
        simp only [ne_eq, not_true_eq_false, false_iff, not_exists, not_and, not_not]
        intro res1 body1 h1 _
        cases h1
        exact hs
      · rw [Delete_failure_status base J service phoneNumberSid s res body hp hb hs]
        simp only [ne_eq, Option.some_ne_none, not_false_eq_true, true_iff, reduceCtorEq]
        exact ⟨res, body, rfl, hb, hs⟩
    · rw [Delete_read_error base J service phoneNumberSid s res body e hp hb]
      simp only [ne_eq, not_true_eq_false, false_iff, not_exists, not_and, not_not]
      intro res1 body1 h1 h2
      cases h1
      rw [hb] at h2
      cases h2

end Outcomes

/-! ## Success and failure statuses -/

section Claims

variable {σ Error Time Any M Exc : Type}

/-- C2: when the POST and the body read succeed and the status is 201,
`AddPhoneNumber` returns a nil Exception, and the returned ProxyPhoneNumber and
error are exactly the destination and the error of `json.Unmarshal` of the
body into a zero ProxyPhoneNumber; so a body that decodes to `pn` without error
gives `(pn, nil, nil)`. -/
theorem AddPhoneNumber_created [Inhabited Time] [Inhabited Exc] (base : String)
    (J : Json Error (ProxyPhoneNumber Time Any) (ProxyPhoneNumberList Time Any M) Exc)
    (service : ProxyService σ Error) (req : ProxyPhoneNumberRequest) (s : σ)
    (res : Response Error) (body : Bytes)
    (h : (service.twilio.post (PhoneNumberFormValues req)
      (Sprintf4 base "Services" service.Sid "PhoneNumbers") s).1 = Except.ok res)
    (hr : ReadAll res.Body = (body, none)) (hs : res.StatusCode = 201) :
    (AddPhoneNumber base J service req s).1
      = ((Unmarshal J.checkValid J.decodePhoneNumber body default).1, none,
         (Unmarshal J.checkValid J.decodePhoneNumber body default).2) ∧
    (∀ pn : ProxyPhoneNumber Time Any,
      Unmarshal J.checkValid J.decodePhoneNumber body default = (pn, none) →
      (AddPhoneNumber base J service req s).1 = (pn, none, none)) := by
  have key := Add_success_status base J service req s res body h hr hs
  refine ⟨by rw [key], ?_⟩
  intro pn hpn
  rw [key, hpn]

/-- C2 at a concrete input: a 201 answer with a well-formed body. -/
theorem AddPhoneNumber_created_witness :
    (AddPhoneNumber "https://proxy.twilio.com/v1" demoJson
        (demoService (Except.ok ⟨201, ⟨demoBody, none⟩⟩)) demoRequest []).1
      = ((Unmarshal demoJson.checkValid demoJson.decodePhoneNumber demoBody default).1, none,
         (Unmarshal demoJson.checkValid demoJson.decodePhoneNumber demoBody default).2) ∧
    (AddPhoneNumber "https://proxy.twilio.com/v1" demoJson
        (demoService (Except.ok ⟨201, ⟨demoBody, none⟩⟩)) demoRequest []).1
      = (⟨"PN1", "", "", 0, none, "", "", "", 0, "", "", ""⟩, none, none) :=
  ⟨(AddPhoneNumber_created "https://proxy.twilio.com/v1" demoJson
      (demoService (Except.ok ⟨201, ⟨demoBody, none⟩⟩)) demoRequest []
      ⟨201, ⟨demoBody, none⟩⟩ demoBody rfl rfl rfl).1,
   rfl⟩

/-- C3: when the POST and the body read succeed and the status is not 201,
`AddPhoneNumber` returns the zero ProxyPhoneNumber and a non-nil Exception, the
destination of `json.Unmarshal` of the body into a zero Exception. -/
theorem AddPhoneNumber_not_created [Inhabited Time] [Inhabited Exc] (base : String)
    (J : Json Error (ProxyPhoneNumber Time Any) (ProxyPhoneNumberList Time Any M) Exc)
    (service : ProxyService σ Error) (req : ProxyPhoneNumberRequest) (s : σ)
    (res : Response Error) (body : Bytes)
    (h : (service.twilio.post (PhoneNumberFormValues req)
      (Sprintf4 base "Services" service.Sid "PhoneNumbers") s).1 = Except.ok res)
    (hr : ReadAll res.Body = (body, none)) (hs : res.StatusCode ≠ 201) :
    (AddPhoneNumber base J service req s).1.1 = default ∧
    (AddPhoneNumber base J service req s).1.2.1 ≠ none ∧
    (AddPhoneNumber base J service req s).1.2.1
      = some (Unmarshal J.checkValid J.decodeException body default).1 := by
  have key := Add_failure_status base J service req s res body h hr hs
  rw [key]
  exact ⟨rfl, by simp, rfl⟩

/-- C3 at a concrete input: a 404 answer. -/
theorem AddPhoneNumber_not_created_witness :
    (AddPhoneNumber "https://proxy.twilio.com/v1" demoJson
        (demoService (Except.ok ⟨404, ⟨demoBody, none⟩⟩)) demoRequest []).1.1 = default ∧
    (AddPhoneNumber "https://proxy.twilio.com/v1" demoJson
        (demoService (Except.ok ⟨404, ⟨demoBody, none⟩⟩)) demoRequest []).1.2.1 ≠ none ∧
    (AddPhoneNumber "https://proxy.twilio.com/v1" demoJson
        (demoService (Except.ok ⟨404, ⟨demoBody, none⟩⟩)) demoRequest []).1.2.1
      = some (Unmarshal demoJson.checkValid demoJson.decodeException demoBody default).1 :=
  AddPhoneNumber_not_created "https://proxy.twilio.com/v1" demoJson
    (demoService (Except.ok ⟨404, ⟨demoBody, none⟩⟩)) demoRequest []
    ⟨404, ⟨demoBody, none⟩⟩ demoBody rfl rfl (by decide)

/-- C4: when the GET and the body read succeed with status 200 and the body
decodes without error to the envelope with participants `pns` and metadata
`meta`, `ListPhoneNumbers` returns exactly `pns` (same elements, same order),
whatever `meta` is, with a nil Exception and a nil error. -/
theorem ListPhoneNumbers_ok [Inhabited M] [Inhabited Exc] (base : String)
    (J : Json Error (ProxyPhoneNumber Time Any) (ProxyPhoneNumberList Time Any M) Exc)
    (service : ProxyService σ Error) (s : σ) (res : Response Error) (body : Bytes)
    (pns : Option (List (ProxyPhoneNumber Time Any))) (meta : M)
    (h : (service.twilio.get (Sprintf4 base "Services" service.Sid "PhoneNumbers") s).1
      = Except.ok res)
    (hr : ReadAll res.Body = (body, none)) (hs : res.StatusCode = 200)
    (hd : Unmarshal J.checkValid J.decodeList body default = (⟨pns, meta⟩, none)) :
    (ListPhoneNumbers base J service s).1 = (pns, none, none) := by
  rw [List_success_status base J service s res body h hr hs, hd]

/-- C4 at a concrete input: a 200 answer whose body decodes to one phone number. -/
theorem ListPhoneNumbers_ok_witness :
    (ListPhoneNumbers "https://proxy.twilio.com/v1" demoJson
        (demoService (Except.ok ⟨200, ⟨demoBody, none⟩⟩)) []).1
      = (some [default], none, none) :=
  ListPhoneNumbers_ok "https://proxy.twilio.com/v1" demoJson
    (demoService (Except.ok ⟨200, ⟨demoBody, none⟩⟩)) []
    ⟨200, ⟨demoBody, none⟩⟩ demoBody (some [default]) 1 rfl rfl rfl rfl

/-- C5, as the code has it: when the DELETE succeeds, the body is read without
error and the status is 204, `DeletePhoneNumber` returns `(nil, nil)`,
whatever bytes the body holds. The body is read before the status is tested,
so the condition on the read cannot be dropped. -/
theorem DeletePhoneNumber_no_content [Inhabited Exc] (base : String)
    (J : Json Error (ProxyPhoneNumber Time Any) (ProxyPhoneNumberList Time Any M) Exc)
    (service : ProxyService σ Error) (phoneNumberSid : String) (s : σ)
    (res : Response Error) (body : Bytes)
    (h : (service.twilio.delete
      (Sprintf5 base "Services" service.Sid "PhoneNumbers" phoneNumberSid) s).1 = Except.ok res)
    (hr : ReadAll res.Body = (body, none)) (hs : res.StatusCode = 204) :
    (DeletePhoneNumber base J service phoneNumberSid s).1 = (none, none) := by
  rw [Delete_success_status base J service phoneNumberSid s res body h hr hs]

/-- C5 at a concrete input: a 204 answer with a non-empty, ill-formed body. -/
theorem DeletePhoneNumber_no_content_witness :
    (DeletePhoneNumber "https://proxy.twilio.com/v1" demoJson
        (demoService (Except.ok ⟨204, ⟨[110, 111], none⟩⟩)) "PN1" []).1 = (none, none) :=
  DeletePhoneNumber_no_content "https://proxy.twilio.com/v1" demoJson
    (demoService (Except.ok ⟨204, ⟨[110, 111], none⟩⟩)) "PN1" []
    ⟨204, ⟨[110, 111], none⟩⟩ [110, 111] rfl rfl rfl

/-- C5 without the condition on the body read fails: the transport answers
the DELETE with status 204, reading the body fails with `unexpected EOF`, and
`DeletePhoneNumber` returns `(nil, unexpected EOF)`, not `(nil, nil)`: the
read-error test comes before the status test. -/
theorem DeletePhoneNumber_no_content_read_failure :
    ((demoService (Except.ok ⟨204, ⟨[], some "unexpected EOF"⟩⟩)).twilio.delete
        (Sprintf5 "https://proxy.twilio.com/v1" "Services"
          (demoService (Except.ok ⟨204, ⟨[], some "unexpected EOF"⟩⟩)).Sid "PhoneNumbers" "PN1")
        []).1 = Except.ok ⟨204, ⟨[], some "unexpected EOF"⟩⟩ ∧
    (⟨204, ⟨[], some "unexpected EOF"⟩⟩ : Response String).StatusCode = 204 ∧
    (DeletePhoneNumber "https://proxy.twilio.com/v1" demoJson
        (demoService (Except.ok ⟨204, ⟨[], some "unexpected EOF"⟩⟩)) "PN1" []).1
      = (none, some "unexpected EOF") ∧
    (DeletePhoneNumber "https://proxy.twilio.com/v1" demoJson
        (demoService (Except.ok ⟨204, ⟨[], some "unexpected EOF"⟩⟩)) "PN1" []).1
      ≠ (none, none) := by
  refine ⟨rfl, rfl, rfl, ?_⟩
  intro h
  have h2 := congrArg Prod.snd h
  cases h2

/-! ## Transport failures, exceptions and decoding errors -/

/-- C6: in each of the four operations, when the transport call fails with
`e`, or it succeeds and reading the body fails with `e`, the operation returns
the zero typed result (zero ProxyPhoneNumber for Add and Get, nil slice for
List), a nil Exception and the error `e`, after that one transport call. The
returned tuple is the same for every decoder `J`: no decoding takes part. -/
theorem transport_failure_short_circuits [Inhabited Time] [Inhabited M] [Inhabited Exc] (base : String)
    (J : Json Error (ProxyPhoneNumber Time Any) (ProxyPhoneNumberList Time Any M) Exc)
    (service : ProxyService σ Error) (req : ProxyPhoneNumberRequest) (phoneNumberSid : String)
    (s : σ) (e : Error) :
    ((service.twilio.post (PhoneNumberFormValues req)
        (Sprintf4 base "Services" service.Sid "PhoneNumbers") s).1 = Except.error e →
      AddPhoneNumber base J service req s = ((default, none, some e), (service.twilio.post (PhoneNumberFormValues req)
        (Sprintf4 base "Services" service.Sid "PhoneNumbers") s).2)) ∧
    (∀ (res : Response Error) (body : Bytes),
      (service.twilio.post (PhoneNumberFormValues req)
        (Sprintf4 base "Services" service.Sid "PhoneNumbers") s).1 = Except.ok res →
      ReadAll res.Body = (body, some e) →
      AddPhoneNumber base J service req s = ((default, none, some e), (service.twilio.post (PhoneNumberFormValues req)
        (Sprintf4 base "Services" service.Sid "PhoneNumbers") s).2)) ∧
    ((service.twilio.get (Sprintf4 base "Services" service.Sid "PhoneNumbers") s).1 = Except.error e →
      ListPhoneNumbers base J service s = ((none, none, some e), (service.twilio.get (Sprintf4 base "Services" service.Sid "PhoneNumbers") s).2)) ∧
    (∀ (res : Response Error) (body : Bytes),
      (service.twilio.get (Sprintf4 base "Services" service.Sid "PhoneNumbers") s).1 = Except.ok res →
      ReadAll res.Body = (body, some e) →
      ListPhoneNumbers base J service s = ((none, none, some e), (service.twilio.get (Sprintf4 base "Services" service.Sid "PhoneNumbers") s).2)) ∧
    ((service.twilio.get
        (Sprintf5 base "Services" service.Sid "PhoneNumbers" phoneNumberSid) s).1 = Except.error e →
      GetPhoneNumber base J service phoneNumberSid s = ((default, none, some e), (service.twilio.get
        (Sprintf5 base "Services" service.Sid "PhoneNumbers" phoneNumberSid) s).2)) ∧
    (∀ (res : Response Error) (body : Bytes),
      (service.twilio.get
        (Sprintf5 base "Services" service.Sid "PhoneNumbers" phoneNumberSid) s).1 = Except.ok res →
      ReadAll res.Body = (body, some e) →
      GetPhoneNumber base J service phoneNumberSid s = ((default, none, some e), (service.twilio.get
        (Sprintf5 base "Services" service.Sid "PhoneNumbers" phoneNumberSid) s).2)) ∧
    ((service.twilio.delete
        (Sprintf5 base "Services" service.Sid "PhoneNumbers" phoneNumberSid) s).1 = Except.error e →
      DeletePhoneNumber base J service phoneNumberSid s = ((none, some e), (service.twilio.delete
        (Sprintf5 base "Services" service.Sid "PhoneNumbers" phoneNumberSid) s).2)) ∧
    (∀ (res : Response Error) (body : Bytes),
      (service.twilio.delete
        (Sprintf5 base "Services" service.Sid "PhoneNumbers" phoneNumberSid) s).1 = Except.ok res →
      ReadAll res.Body = (body, some e) →
      DeletePhoneNumber base J service phoneNumberSid s = ((none, some e), (service.twilio.delete
        (Sprintf5 base "Services" service.Sid "PhoneNumbers" phoneNumberSid) s).2)) := by
  refine ⟨?_, ?_, ?_, ?_, ?_, ?_, ?_, ?_⟩
  · intro h
    exact Add_transport_error base J service req s e h
  · intro res body h hr
    exact Add_read_error base J service req s res body e h hr
  · intro h
    exact List_transport_error base J service s e h
  · intro res body h hr
    exact List_read_error base J service s res body e h hr
  · intro h
    exact Get_transport_error base J service phoneNumberSid s e h
  · intro res body h hr
    exact Get_read_error base J service phoneNumberSid s res body e h hr
  · intro h
    exact Delete_transport_error base J service phoneNumberSid s e h
  · intro res body h hr
    exact Delete_read_error base J service phoneNumberSid s res body e h hr

/-- C7: in each of the four operations and for every outcome, the returned
Exception is non-nil exactly when the transport call and the body read
succeeded and the status is not the success status of the operation (201 for
Add, 200 for List and Get, 204 for Delete). -/
theorem exception_iff_failure_status [Inhabited Time] [Inhabited M] [Inhabited Exc] (base : String)
    (J : Json Error (ProxyPhoneNumber Time Any) (ProxyPhoneNumberList Time Any M) Exc)
    (service : ProxyService σ Error) (req : ProxyPhoneNumberRequest) (phoneNumberSid : String)
    (s : σ) :
    ((AddPhoneNumber base J service req s).1.2.1 ≠ none ↔
      ∃ res body, (service.twilio.post (PhoneNumberFormValues req)
        (Sprintf4 base "Services" service.Sid "PhoneNumbers") s).1 = Except.ok res ∧
        ReadAll res.Body = (body, none) ∧ res.StatusCode ≠ 201) ∧
    ((ListPhoneNumbers base J service s).1.2.1 ≠ none ↔
      ∃ res body, (service.twilio.get (Sprintf4 base "Services" service.Sid "PhoneNumbers") s).1 = Except.ok res ∧
        ReadAll res.Body = (body, none) ∧ res.StatusCode ≠ 200) ∧
    ((GetPhoneNumber base J service phoneNumberSid s).1.2.1 ≠ none ↔
      ∃ res body, (service.twilio.get
        (Sprintf5 base "Services" service.Sid "PhoneNumbers" phoneNumberSid) s).1 = Except.ok res ∧
        ReadAll res.Body = (body, none) ∧ res.StatusCode ≠ 200) ∧
    ((DeletePhoneNumber base J service phoneNumberSid s).1.1 ≠ none ↔
      ∃ res body, (service.twilio.delete
        (Sprintf5 base "Services" service.Sid "PhoneNumbers" phoneNumberSid) s).1 = Except.ok res ∧
        ReadAll res.Body = (body, none) ∧ res.StatusCode ≠ 204) :=
  ⟨Add_exception_iff base J service req s, List_exception_iff base J service s,
   Get_exception_iff base J service phoneNumberSid s,
   Delete_exception_iff base J service phoneNumberSid s⟩

/-- C8: in each of the four operations, when the transport call and the body
read succeed and the status is not the success status, the returned error is
the error of `json.Unmarshal` of the body into a zero Exception (nil when the
body decodes, that decoding error otherwise), and the returned Exception is
the non-nil destination of that call. -/
theorem failure_status_error_is_decoding_error [Inhabited Time] [Inhabited M] [Inhabited Exc] (base : String)
    (J : Json Error (ProxyPhoneNumber Time Any) (ProxyPhoneNumberList Time Any M) Exc)
    (service : ProxyService σ Error) (req : ProxyPhoneNumberRequest) (phoneNumberSid : String)
    (s : σ) (res : Response Error)
    (body : Bytes) (hr : ReadAll res.Body = (body, none)) :
    ((service.twilio.post (PhoneNumberFormValues req)
        (Sprintf4 base "Services" service.Sid "PhoneNumbers") s).1 = Except.ok res →
      res.StatusCode ≠ 201 →
      (AddPhoneNumber base J service req s).1.2.2
        = (Unmarshal J.checkValid J.decodeException body default).2 ∧
      (AddPhoneNumber base J service req s).1.2.1
        = some (Unmarshal J.checkValid J.decodeException body default).1) ∧
    ((service.twilio.get (Sprintf4 base "Services" service.Sid "PhoneNumbers") s).1 = Except.ok res →
      res.StatusCode ≠ 200 →
      (ListPhoneNumbers base J service s).1.2.2
        = (Unmarshal J.checkValid J.decodeException body default).2 ∧
      (ListPhoneNumbers base J service s).1.2.1
        = some (Unmarshal J.checkValid J.decodeException body default).1) ∧
    ((service.twilio.get
        (Sprintf5 base "Services" service.Sid "PhoneNumbers" phoneNumberSid) s).1 = Except.ok res →
      res.StatusCode ≠ 200 →
      (GetPhoneNumber base J service phoneNumberSid s).1.2.2
        = (Unmarshal J.checkValid J.decodeException body default).2 ∧
      (GetPhoneNumber base J service phoneNumberSid s).1.2.1
        = some (Unmarshal J.checkValid J.decodeException body default).1) ∧
    ((service.twilio.delete
        (Sprintf5 base "Services" service.Sid "PhoneNumbers" phoneNumberSid) s).1 = Except.ok res →
      res.StatusCode ≠ 204 →
      (DeletePhoneNumber base J service phoneNumberSid s).1.2
        = (Unmarshal J.checkValid J.decodeException body default).2 ∧
      (DeletePhoneNumber base J service phoneNumberSid s).1.1
        = some (Unmarshal J.checkValid J.decodeException body default).1) := by
  refine ⟨?_, ?_, ?_, ?_⟩
  · intro h hs
    rw [Add_failure_status base J service req s res body h hr hs]
    exact ⟨rfl, rfl⟩
  · intro h hs
    rw [List_failure_status base J service s res body h hr hs]
    exact ⟨rfl, rfl⟩
  · intro h hs
    rw [Get_failure_status base J service phoneNumberSid s res body h hr hs]
    exact ⟨rfl, rfl⟩
  · intro h hs
    rw [Delete_failure_status base J service phoneNumberSid s res body h hr hs]
    exact ⟨rfl, rfl⟩

/-- C9: in `AddPhoneNumber`, `ListPhoneNumbers` and `GetPhoneNumber`, when the
transport call and the body read succeed and the body is malformed JSON (the
well-formedness check of `json.Unmarshal` rejects it with `e`), the operation
returns the non-nil decoding error `e` and its typed result is the zero value
(nil slice for List), whatever the status. -/
theorem malformed_body_zero_result [Inhabited Time] [Inhabited M] [Inhabited Exc] (base : String)
    (J : Json Error (ProxyPhoneNumber Time Any) (ProxyPhoneNumberList Time Any M) Exc)
    (service : ProxyService σ Error) (req : ProxyPhoneNumberRequest) (phoneNumberSid : String)
    (s : σ) (res : Response Error)
    (body : Bytes) (e : Error) (hr : ReadAll res.Body = (body, none))
    (hbad : J.checkValid body = some e) :
    ((service.twilio.post (PhoneNumberFormValues req)
        (Sprintf4 base "Services" service.Sid "PhoneNumbers") s).1 = Except.ok res →
      (AddPhoneNumber base J service req s).1.2.2 = some e ∧
      (AddPhoneNumber base J service req s).1.1 = default) ∧
    ((service.twilio.get (Sprintf4 base "Services" service.Sid "PhoneNumbers") s).1 = Except.ok res →
      (ListPhoneNumbers base J service s).1.2.2 = some e ∧
      (ListPhoneNumbers base J service s).1.1 = none) ∧
    ((service.twilio.get
        (Sprintf5 base "Services" service.Sid "PhoneNumbers" phoneNumberSid) s).1 = Except.ok res →
      (GetPhoneNumber base J service phoneNumberSid s).1.2.2 = some e ∧
      (GetPhoneNumber base J service phoneNumberSid s).1.1 = default) := by
  refine ⟨?_, ?_, ?_⟩
  · intro h
    by_cases hs : res.StatusCode = 201
    · rw [Add_success_status base J service req s res body h hr hs,
        Unmarshal_invalid J.checkValid J.decodePhoneNumber body default e hbad]
      exact ⟨rfl, rfl⟩
    · rw [Add_failure_status base J service req s res body h hr hs,
        Unmarshal_invalid J.checkValid J.decodeException body default e hbad]
      exact ⟨rfl, rfl⟩
  · intro h
    by_cases hs : res.StatusCode = 200
    · rw [List_success_status base J service s res body h hr hs,
        Unmarshal_invalid J.checkValid J.decodeList body default e hbad]
      exact ⟨rfl, rfl⟩
    · rw [List_failure_status base J service s res body h hr hs,
        Unmarshal_invalid J.checkValid J.decodeException body default e hbad]
      exact ⟨rfl, rfl⟩
  · intro h
    by_cases hs : res.StatusCode = 200
    · rw [Get_success_status base J service phoneNumberSid s res body h hr hs,
        Unmarshal_invalid J.checkValid J.decodePhoneNumber body default e hbad]
      exact ⟨rfl, rfl⟩
    · rw [Get_failure_status base J service phoneNumberSid s res body h hr hs,
        Unmarshal_invalid J.checkValid J.decodeException body default e hbad]
      exact ⟨rfl, rfl⟩

/-! ## Requests issued -/

/-- C10: over the recording transport, whatever the remote side answers,
`AddPhoneNumber` issues exactly one call, a POST of the encoded form to
`ProxyBaseUrl ++ "/Services/" ++ sid ++ "/PhoneNumbers"`; `ListPhoneNumbers`
exactly one GET of that URL; `GetPhoneNumber` exactly one GET, and
`DeletePhoneNumber` exactly one DELETE, of that URL followed by `"/"` and the
phone-number Sid. -/
theorem requests_issued [Inhabited Time] [Inhabited M] [Inhabited Exc] (base : String)
    (J : Json Error (ProxyPhoneNumber Time Any) (ProxyPhoneNumberList Time Any M) Exc)
    (sid : String) (respond : List Call → Call → Except Error (Response Error))
    (req : ProxyPhoneNumberRequest) (phoneNumberSid : String) (log : List Call) :
    (AddPhoneNumber base J ⟨sid, recording respond⟩ req log).2
      = log ++ [⟨Method.POST, base ++ "/Services/" ++ sid ++ "/PhoneNumbers",
          some (PhoneNumberFormValues req)⟩] ∧
    (ListPhoneNumbers base J ⟨sid, recording respond⟩ log).2
      = log ++ [⟨Method.GET, base ++ "/Services/" ++ sid ++ "/PhoneNumbers", none⟩] ∧
    (GetPhoneNumber base J ⟨sid, recording respond⟩ phoneNumberSid log).2
      = log ++ [⟨Method.GET,
          base ++ "/Services/" ++ sid ++ "/PhoneNumbers" ++ "/" ++ phoneNumberSid, none⟩] ∧
    (DeletePhoneNumber base J ⟨sid, recording respond⟩ phoneNumberSid log).2
      = log ++ [⟨Method.DELETE,
          base ++ "/Services/" ++ sid ++ "/PhoneNumbers" ++ "/" ++ phoneNumberSid, none⟩] := by
  refine ⟨?_, ?_, ?_, ?_⟩
  · rw [Add_state, Sprintf4_services]
    rfl
  · rw [List_state, Sprintf4_services]
    rfl
  · rw [Get_state, Sprintf5_services]
    rfl
  · rw [Delete_state, Sprintf5_services]
    rfl

/-! ## The four-operation claims at concrete inputs -/

/-- C6 at concrete inputs: a refused connection for Add and Delete, a body
read that fails for List and Get. -/
theorem transport_failure_short_circuits_witness :
    (AddPhoneNumber "https://proxy.twilio.com/v1" demoJson (demoService (Except.error "connection refused"))
        demoRequest []).1 = (default, none, some "connection refused") ∧
    (DeletePhoneNumber "https://proxy.twilio.com/v1" demoJson (demoService (Except.error "connection refused"))
        "PN1" []).1 = (none, some "connection refused") ∧
    (ListPhoneNumbers "https://proxy.twilio.com/v1" demoJson
        (demoService (Except.ok ⟨200, ⟨[123], some "unexpected EOF"⟩⟩)) []).1
      = (none, none, some "unexpected EOF") ∧
    (GetPhoneNumber "https://proxy.twilio.com/v1" demoJson
        (demoService (Except.ok ⟨200, ⟨[123], some "unexpected EOF"⟩⟩)) "PN1" []).1
      = (default, none, some "unexpected EOF") :=
  ⟨congrArg Prod.fst ((transport_failure_short_circuits "https://proxy.twilio.com/v1" demoJson
      (demoService (Except.error "connection refused")) demoRequest "PN1" []
      "connection refused").1 rfl),
   congrArg Prod.fst ((transport_failure_short_circuits "https://proxy.twilio.com/v1" demoJson
      (demoService (Except.error "connection refused")) demoRequest "PN1" []
      "connection refused").2.2.2.2.2.2.1 rfl),
   congrArg Prod.fst ((transport_failure_short_circuits "https://proxy.twilio.com/v1" demoJson
      (demoService (Except.ok ⟨200, ⟨[123], some "unexpected EOF"⟩⟩)) demoRequest "PN1" []
      "unexpected EOF").2.2.2.1 ⟨200, ⟨[123], some "unexpected EOF"⟩⟩ [123] rfl rfl),
   congrArg Prod.fst ((transport_failure_short_circuits "https://proxy.twilio.com/v1" demoJson
      (demoService (Except.ok ⟨200, ⟨[123], some "unexpected EOF"⟩⟩)) demoRequest "PN1" []
      "unexpected EOF").2.2.2.2.2.1 ⟨200, ⟨[123], some "unexpected EOF"⟩⟩ [123] rfl rfl)⟩

/-- C8 at a concrete input: a 404 answer whose body decodes as an Exception
gives a nil error in all four operations. -/
theorem failure_status_error_is_decoding_error_witness :
    (AddPhoneNumber "https://proxy.twilio.com/v1" demoJson (demoService (Except.ok ⟨404, ⟨demoBody, none⟩⟩)) demoRequest []).1
      = (default, some "not found", none) ∧
    (ListPhoneNumbers "https://proxy.twilio.com/v1" demoJson (demoService (Except.ok ⟨404, ⟨demoBody, none⟩⟩)) []).1 = (none, some "not found", none) ∧
    (GetPhoneNumber "https://proxy.twilio.com/v1" demoJson (demoService (Except.ok ⟨404, ⟨demoBody, none⟩⟩)) "PN1" []).1
      = (default, some "not found", none) ∧
    (DeletePhoneNumber "https://proxy.twilio.com/v1" demoJson (demoService (Except.ok ⟨404, ⟨demoBody, none⟩⟩)) "PN1" []).1 = (some "not found", none) ∧
    ((AddPhoneNumber "https://proxy.twilio.com/v1" demoJson (demoService (Except.ok ⟨404, ⟨demoBody, none⟩⟩)) demoRequest []).1.2.2
        = (Unmarshal demoJson.checkValid demoJson.decodeException demoBody default).2 ∧
     (AddPhoneNumber "https://proxy.twilio.com/v1" demoJson (demoService (Except.ok ⟨404, ⟨demoBody, none⟩⟩)) demoRequest []).1.2.1
        = some (Unmarshal demoJson.checkValid demoJson.decodeException demoBody default).1) :=
  ⟨rfl, rfl, rfl, rfl,
   (failure_status_error_is_decoding_error "https://proxy.twilio.com/v1" demoJson (demoService (Except.ok ⟨404, ⟨demoBody, none⟩⟩)) demoRequest "PN1" []
      ⟨404, ⟨demoBody, none⟩⟩ demoBody rfl).1 rfl (by decide)⟩

/-- C9 at a concrete input: a 200 answer with a body the decoder rejects. -/
theorem malformed_body_zero_result_witness :
    demoJson.checkValid [110, 111] = some "invalid character" ∧
    (AddPhoneNumber "https://proxy.twilio.com/v1" demoJson (demoService (Except.ok ⟨200, ⟨[110, 111], none⟩⟩)) demoRequest []).1
      = (default, some "", some "invalid character") ∧
    ((ListPhoneNumbers "https://proxy.twilio.com/v1" demoJson (demoService (Except.ok ⟨200, ⟨[110, 111], none⟩⟩)) []).1.2.2 = some "invalid character" ∧
     (ListPhoneNumbers "https://proxy.twilio.com/v1" demoJson (demoService (Except.ok ⟨200, ⟨[110, 111], none⟩⟩)) []).1.1 = none) ∧
    ((GetPhoneNumber "https://proxy.twilio.com/v1" demoJson (demoService (Except.ok ⟨200, ⟨[110, 111], none⟩⟩)) "PN1" []).1.2.2 = some "invalid character" ∧
     (GetPhoneNumber "https://proxy.twilio.com/v1" demoJson (demoService (Except.ok ⟨200, ⟨[110, 111], none⟩⟩)) "PN1" []).1.1 = default) :=
  ⟨rfl, rfl,
   (malformed_body_zero_result "https://proxy.twilio.com/v1" demoJson (demoService (Except.ok ⟨200, ⟨[110, 111], none⟩⟩)) demoRequest "PN1" []
      ⟨200, ⟨[110, 111], none⟩⟩ [110, 111] "invalid character" rfl rfl).2.1 rfl,
   (malformed_body_zero_result "https://proxy.twilio.com/v1" demoJson (demoService (Except.ok ⟨200, ⟨[110, 111], none⟩⟩)) demoRequest "PN1" []
      ⟨200, ⟨[110, 111], none⟩⟩ [110, 111] "invalid character" rfl rfl).2.2 rfl⟩

end Claims

end Gotwilio
